import Mathlib

/-!
Verification development for the VulkanLab renderer core.

Shallow embedding of the renderer's pure logic, translated from the C++
sources:
  - src/renderer/src/private/gpu_resource_cache.cpp (alignMemory, uploads, lookups)
  - src/renderer/src/renderer.cpp (frame-slot advance, camera UBO writes,
    resize and swapchain-recreation state machine)
  - src/renderer/src/render_passes/skybox_pass.cpp (command recording)
  - src/renderer/src/gpu_device.cpp (copyBufferToImage, device selection)

Machine integers are modelled as Nat with explicit reductions `% 2 ^ 32`
(uint32_t) and `% 2 ^ 64` (vk::DeviceSize) exactly where the C++ stores or
casts could overflow.
-/

deriving instance DecidableEq for Except

namespace VulkanLab

/-! ### alignMemory (gpu_resource_cache.cpp, lines 14-22)

```cpp
vk::DeviceSize alignMemory(vk::DeviceSize data, vk::DeviceSize alignment)
{
    if (data < alignment || data == alignment)
    {
        return alignment;
    }
    return data + (alignment - (data % alignment));
}
```
`vk::DeviceSize` is uint64_t; the addition is performed modulo 2 ^ 64.
The subtraction `alignment - data % alignment` never underflows because
`data % alignment < alignment` whenever `alignment > 0`. -/
def alignMemory (data alignment : Nat) : Nat :=
  if data < alignment ∨ data = alignment then
    alignment
  else
    (data + (alignment - data % alignment)) % 2 ^ 64

/-- On the else-branch (alignment < data) and without uint64 overflow, the
result is `alignment * (data / alignment + 1)`. -/
lemma alignMemory_else (data alignment : Nat) (halign : 0 < alignment)
    (hlt : alignment < data) (hno : data + alignment < 2 ^ 64) :
    alignMemory data alignment = alignment * (data / alignment + 1) := by
  have hmod : data % alignment < alignment := Nat.mod_lt _ halign
  have hnotif : ¬(data < alignment ∨ data = alignment) := by
    push_neg
    exact ⟨le_of_lt hlt, fun h => absurd h (by omega)⟩
  unfold alignMemory
  rw [if_neg hnotif]
  have hsum : data + (alignment - data % alignment) < 2 ^ 64 := by omega
  rw [Nat.mod_eq_of_lt hsum]
  have hdm := Nat.div_add_mod data alignment
  have hmul : alignment * (data / alignment + 1)
      = alignment * (data / alignment) + alignment := by ring
  omega

/-- Without overflow, the result of `alignMemory` is a multiple of the
alignment. -/
lemma alignMemory_dvd (data alignment : Nat) (halign : 0 < alignment)
    (hno : data + alignment < 2 ^ 64) :
    alignment ∣ alignMemory data alignment := by
  by_cases h : data < alignment ∨ data = alignment
  · unfold alignMemory
    rw [if_pos h]
  · push_neg at h
    have hlt : alignment < data := lt_of_le_of_ne h.1 (fun he => h.2 he.symm)
    rw [alignMemory_else data alignment halign hlt hno]
    exact Dvd.intro _ rfl

/-- Without overflow, the result of `alignMemory` is at least `data`. -/
lemma alignMemory_ge (data alignment : Nat) (halign : 0 < alignment)
    (hno : data + alignment < 2 ^ 64) :
    data ≤ alignMemory data alignment := by
  by_cases h : data < alignment ∨ data = alignment
  · unfold alignMemory
    rw [if_pos h]
    rcases h with h | h
    · exact le_of_lt h
    · exact le_of_eq h
  · push_neg at h
    have hlt : alignment < data := lt_of_le_of_ne h.1 (fun he => h.2 he.symm)
    rw [alignMemory_else data alignment halign hlt hno]
    have hdm := Nat.div_add_mod data alignment
    have hmod : data % alignment < alignment := Nat.mod_lt _ halign
    calc data = alignment * (data / alignment) + data % alignment := hdm.symm
      _ ≤ alignment * (data / alignment) + alignment := by omega
      _ = alignment * (data / alignment + 1) := by ring

/-- When the requested size is at most the alignment, the stride is exactly
the alignment. -/
lemma alignMemory_of_le (data alignment : Nat) (hle : data ≤ alignment) :
    alignMemory data alignment = alignment := by
  unfold alignMemory
  rw [if_pos]
  omega

/-- `alignMemory` at a size that is a strict multiple of the alignment adds a
whole extra alignment instead of returning the size. -/
lemma alignMemory_of_dvd_lt (data alignment : Nat) (halign : 0 < alignment)
    (hlt : alignment < data) (hdvd : alignment ∣ data)
    (hno : data + alignment < 2 ^ 64) :
    alignMemory data alignment = data + alignment := by
  rw [alignMemory_else data alignment halign hlt hno]
  obtain ⟨k, hk⟩ := hdvd
  subst hk
  rw [Nat.mul_div_cancel_left k halign]
  ring

/-- C1, claim as stated, is false: `alignMemory` is not idempotent.
`alignMemory 300 256 = 512`, but a second application yields
`alignMemory 512 256 = 768 ≠ 512`. -/
theorem alignStride_not_idempotent :
    alignMemory 300 256 = 512 ∧
    alignMemory (alignMemory 300 256) 256 = 768 ∧
    alignMemory (alignMemory 300 256) 256 ≠ alignMemory 300 256 := by
  decide

/-- C1 (amended): for `size > 0`, `alignment > 0` and no uint64 overflow, the
stride is a multiple of the alignment and at least `size`; a size at most the
alignment yields exactly the alignment; a larger size yields
`alignment * (size / alignment + 1)` — the next multiple strictly above
`size` when `size` is not already a multiple, and `size + alignment` when it
is; applying the function twice is idempotent exactly when
`size ≤ alignment`; and `alignMemory 16 256 = 256`,
`alignMemory 300 256 = 512`. -/
theorem alignStride_spec (size alignment : Nat) (_hsize : 0 < size)
    (halign : 0 < alignment) (hno2 : size + 2 * alignment < 2 ^ 64) :
    alignment ∣ alignMemory size alignment ∧
    size ≤ alignMemory size alignment ∧
    (size ≤ alignment → alignMemory size alignment = alignment) ∧
    (alignment < size →
      alignMemory size alignment = alignment * (size / alignment + 1)) ∧
    (alignment < size → ¬ alignment ∣ size →
      alignMemory size alignment < size + alignment) ∧
    (alignment < size → alignment ∣ size →
      alignMemory size alignment = size + alignment) ∧
    (alignMemory (alignMemory size alignment) alignment
        = alignMemory size alignment ↔ size ≤ alignment) ∧
    alignMemory 16 256 = 256 ∧ alignMemory 300 256 = 512 := by
  have hno : size + alignment < 2 ^ 64 := by omega
  refine ⟨alignMemory_dvd size alignment halign hno,
          alignMemory_ge size alignment halign hno,
          fun hle => alignMemory_of_le size alignment hle,
          fun hlt => alignMemory_else size alignment halign hlt hno,
          ?_, fun hlt hdvd => alignMemory_of_dvd_lt size alignment halign hlt hdvd hno,
          ?_, by decide, by decide⟩
  · intro hlt hndvd
    rw [alignMemory_else size alignment halign hlt hno]
    have hdm := Nat.div_add_mod size alignment
    have hmod : size % alignment < alignment := Nat.mod_lt _ halign
    have hpos : 0 < size % alignment := by
      rcases Nat.eq_zero_or_pos (size % alignment) with h0 | hp
      · exact absurd (Nat.dvd_of_mod_eq_zero h0) hndvd
      · exact hp
    have hmul : alignment * (size / alignment + 1)
        = alignment * (size / alignment) + alignment := by ring
    omega
  · constructor
    · intro hfix
      by_contra hgt
      push_neg at hgt
      have h1 : alignMemory size alignment = alignment * (size / alignment + 1) :=
        alignMemory_else size alignment halign hgt hno
      have hge : alignment < alignMemory size alignment := by
        have hq : 1 ≤ size / alignment := (Nat.one_le_div_iff halign).mpr (le_of_lt hgt)
        have hA : alignment ≤ alignment * (size / alignment) :=
          Nat.le_mul_of_pos_right alignment hq
        have hmul : alignment * (size / alignment + 1)
            = alignment * (size / alignment) + alignment := by ring
        rw [h1]
        omega
      have hdvd : alignment ∣ alignMemory size alignment :=
        alignMemory_dvd size alignment halign hno
      have hAno : alignMemory size alignment + alignment < 2 ^ 64 := by
        -- in the else branch the result is at most size + alignment
        have : alignMemory size alignment ≤ size + alignment := by
          rw [h1]
          have hdm := Nat.div_add_mod size alignment
          have hmod : size % alignment < alignment := Nat.mod_lt _ halign
          have hmul : alignment * (size / alignment + 1)
              = alignment * (size / alignment) + alignment := by ring
          omega
        omega
      have := alignMemory_of_dvd_lt (alignMemory size alignment) alignment halign
        hge hdvd hAno
      rw [hfix] at this
      omega
    · intro hle
      rw [alignMemory_of_le size alignment hle, alignMemory_of_le alignment alignment (le_refl _)]

/-- Witness for C1's amended theorem at `size = 300`, `alignment = 256`. -/
theorem alignStride_spec_witness :
    256 ∣ alignMemory 300 256 ∧
    300 ≤ alignMemory 300 256 ∧
    (300 ≤ 256 → alignMemory 300 256 = 256) ∧
    (256 < 300 → alignMemory 300 256 = 256 * (300 / 256 + 1)) ∧
    (256 < 300 → ¬ (256:Nat) ∣ 300 → alignMemory 300 256 < 300 + 256) ∧
    (256 < 300 → (256:Nat) ∣ 300 → alignMemory 300 256 = 300 + 256) ∧
    (alignMemory (alignMemory 300 256) 256 = alignMemory 300 256 ↔ 300 ≤ 256) ∧
    alignMemory 16 256 = 256 ∧ alignMemory 300 256 = 512 :=
  alignStride_spec 300 256 (by decide) (by decide) (by norm_num)

/-! ### Frame-slot index advance (renderer.cpp, line 185)

```cpp
constexpr auto maxFramesInFlight = 2;
...
currentFrameIndex_ = (currentFrameIndex_ + 1) & maxFramesInFlight;
```
The advance uses bitwise AND with the frame count itself (`& 2`), not a
modulo reduction. -/
def maxFramesInFlight : Nat := 2

/-- The frame-slot index update exactly as written in `Renderer::renderFrame`. -/
def advanceFrameIndex (i : Nat) : Nat :=
  (i + 1) &&& maxFramesInFlight

/-- C2 fails on the code: from index 0 the advance yields `(0+1) & 2 = 0`,
not `(0+1) mod 2 = 1` — the frame-slot index never leaves 0 (and from index
1 it would jump to the out-of-range value 2). -/
theorem advanceFrameIndex_stuck :
    advanceFrameIndex 0 = 0 ∧
    (0 + 1) % maxFramesInFlight = 1 ∧
    advanceFrameIndex 0 ≠ (0 + 1) % maxFramesInFlight ∧
    advanceFrameIndex 1 = 2 ∧
    advanceFrameIndex (advanceFrameIndex 0) = 0 := by
  decide

/-! ### Camera-uniform writes across frame slots
(renderer.cpp, `Renderer::renderFrame` lines 120-186 and
`Renderer::recordCommands` lines 643-653)

```cpp
auto cameraBuffer = CameraBufferObject{};
cameraBuffer.projection = camera.projection();
cameraBuffer.view = camera.view();
memcpy(cameraUboMappedMemory_[currentFrameIndex_], &cameraBuffer, sizeof(cameraBuffer));
```
followed, on the normal path of `renderFrame`, by the frame-index advance of
line 185.  The 4x4 float matrices are only ever copied wholesale here, so
their contents are modelled as a list of 16 scalar entries. -/
abbrev Mat4 := List Int

/-- `renderer::Camera`: the parts `recordCommands` reads (view and
projection matrices). -/
structure Camera where
  view : Mat4
  projection : Mat4

/-- `CameraBufferObject` (renderer.cpp, lines 29-33). -/
structure CameraBufferObject where
  view : Mat4
  projection : Mat4
deriving DecidableEq

/-- The per-frame mapped camera-uniform memory and the current frame slot:
`cameraUboMappedMemory_` (indexed by slot) together with
`currentFrameIndex_`. -/
structure FrameSlotState where
  cameraUboMappedMemory : Nat → CameraBufferObject
  currentFrameIndex : Nat

/-- The camera-uniform write performed by `Renderer::recordCommands` on the
current frame slot's mapped memory. -/
def recordCommandsCameraWrite (camera : Camera) (s : FrameSlotState) : FrameSlotState :=
  { s with
    cameraUboMappedMemory :=
      Function.update s.cameraUboMappedMemory s.currentFrameIndex
        { view := camera.view, projection := camera.projection } }

/-- A normally-completing `Renderer::renderFrame` (no out-of-date acquire or
present, no resize): record the commands — which writes the camera uniform —
then advance the frame-slot index exactly as line 185 does. -/
def renderFrameNormal (camera : Camera) (s : FrameSlotState) : FrameSlotState :=
  let s1 := recordCommandsCameraWrite camera s
  { s1 with currentFrameIndex := advanceFrameIndex s1.currentFrameIndex }

/-- A concrete camera whose matrices differ from the initial slot
contents. -/
def testCamera : Camera :=
  { view := List.replicate 16 (1 : Int), projection := List.replicate 16 (2 : Int) }

/-- Frame slots starting at index 0 with zeroed mapped memory. -/
def initialFrameSlots : FrameSlotState :=
  { cameraUboMappedMemory := fun _ =>
      { view := List.replicate 16 (0 : Int), projection := List.replicate 16 (0 : Int) }
    currentFrameIndex := 0 }

/-- C3 fails on the code: because line 185 advances the index with `& 2`,
two consecutive normally-completing `renderFrame` calls with the same camera
both write frame slot 0; slot 1's mapped camera buffer still holds its
initial contents, not the camera's matrices. -/
theorem renderFrame_twice_slot1_stale :
    (renderFrameNormal testCamera (renderFrameNormal testCamera initialFrameSlots)).currentFrameIndex = 0 ∧
    (renderFrameNormal testCamera (renderFrameNormal testCamera initialFrameSlots)).cameraUboMappedMemory 0
      = { view := testCamera.view, projection := testCamera.projection } ∧
    (renderFrameNormal testCamera (renderFrameNormal testCamera initialFrameSlots)).cameraUboMappedMemory 1
      = initialFrameSlots.cameraUboMappedMemory 1 ∧
    (renderFrameNormal testCamera (renderFrameNormal testCamera initialFrameSlots)).cameraUboMappedMemory 1
      ≠ { view := testCamera.view, projection := testCamera.projection } := by
  refine ⟨by decide, ?_, ?_, ?_⟩ <;>
    simp [renderFrameNormal, recordCommandsCameraWrite, advanceFrameIndex,
      initialFrameSlots, testCamera, maxFramesInFlight, Function.update]

/-! ### Window resize and swapchain recreation
(renderer.cpp, `Renderer::windowResized` lines 188-203 and
`Renderer::recreateSwapchain` lines 590-604)

The swapchain and its image-view vector are modelled by generation counters:
`recreateSwapchain` discards and rebuilds both, which bumps the
generations; any state the code does not touch is left unchanged. -/
structure RendererWindowState where
  windowWidth : Int
  windowHeight : Int
  windowMinimized : Bool
  windowResizedFlag : Bool
  swapchainGeneration : Nat
  swapchainImageViewsGeneration : Nat
deriving DecidableEq

/-- `Renderer::windowResized(width, height)`. -/
def windowResized (width height : Int) (s : RendererWindowState) : RendererWindowState :=
  { s with
    windowWidth := width
    windowHeight := height
    windowMinimized := width == 0 && height == 0
    windowResizedFlag := true }

/-- `Renderer::recreateSwapchain()`: returns immediately while the window is
minimized; otherwise waits for device idle, clears the image views, destroys
the swapchain, and rebuilds both (new generations). -/
def recreateSwapchain (s : RendererWindowState) : RendererWindowState :=
  if s.windowMinimized then
    s
  else
    { s with
      swapchainGeneration := s.swapchainGeneration + 1
      swapchainImageViewsGeneration := s.swapchainImageViewsGeneration + 1 }

/-- C9: after a `(0,0)` resize notification the minimized flag is set and
every recreation request returns the state unchanged — the swapchain and its
image views keep their generations; a subsequent non-zero resize clears the
flag and the next recreation rebuilds both. -/
theorem recreateSwapchain_skipped_while_minimized (s : RendererWindowState) :
    (windowResized 0 0 s).windowMinimized = true ∧
    (∀ t : RendererWindowState, t.windowMinimized = true → recreateSwapchain t = t) ∧
    recreateSwapchain (windowResized 0 0 s) = windowResized 0 0 s ∧
    (∀ w h : Int, ¬(w = 0 ∧ h = 0) →
      (windowResized w h (windowResized 0 0 s)).windowMinimized = false ∧
      (recreateSwapchain (windowResized w h (windowResized 0 0 s))).swapchainGeneration
        = s.swapchainGeneration + 1 ∧
      (recreateSwapchain (windowResized w h (windowResized 0 0 s))).swapchainImageViewsGeneration
        = s.swapchainImageViewsGeneration + 1) := by
  have hmin : ∀ t : RendererWindowState, t.windowMinimized = true → recreateSwapchain t = t := by
    intro t ht
    unfold recreateSwapchain
    rw [ht]
    simp
  refine ⟨by simp [windowResized], hmin, hmin _ (by simp [windowResized]), ?_⟩
  intro w h hwh
  have hflag : (windowResized w h (windowResized 0 0 s)).windowMinimized = false := by
    simp [windowResized]
    intro hw
    exact fun hh => hwh ⟨hw, hh⟩
  refine ⟨hflag, ?_, ?_⟩ <;>
    · unfold recreateSwapchain
      rw [hflag]
      simp [windowResized]

/-- Witness for C9 at a concrete starting state and resize `(800, 600)`. -/
theorem recreateSwapchain_skipped_while_minimized_witness :
    ((windowResized 0 0 ⟨640, 480, false, false, 5, 7⟩).windowMinimized = true ∧
    (∀ t : RendererWindowState, t.windowMinimized = true → recreateSwapchain t = t) ∧
    recreateSwapchain (windowResized 0 0 ⟨640, 480, false, false, 5, 7⟩)
      = windowResized 0 0 ⟨640, 480, false, false, 5, 7⟩ ∧
    (∀ w h : Int, ¬(w = 0 ∧ h = 0) →
      (windowResized w h (windowResized 0 0 ⟨640, 480, false, false, 5, 7⟩)).windowMinimized = false ∧
      (recreateSwapchain (windowResized w h (windowResized 0 0 ⟨640, 480, false, false, 5, 7⟩))).swapchainGeneration = 6 ∧
      (recreateSwapchain (windowResized w h (windowResized 0 0 ⟨640, 480, false, false, 5, 7⟩))).swapchainImageViewsGeneration = 8)) ∧
    (windowResized 800 600 (windowResized 0 0 ⟨640, 480, false, false, 5, 7⟩)).windowMinimized = false :=
  ⟨recreateSwapchain_skipped_while_minimized ⟨640, 480, false, false, 5, 7⟩,
   (recreateSwapchain_skipped_while_minimized ⟨640, 480, false, false, 5, 7⟩).2.2.2 800 600 (by omega) |>.1⟩

/-! ### Skybox pass command recording
(render_passes/skybox_pass.cpp, `SkyboxPass::recordCommands` lines 23-70)

The commands recorded into the frame's command buffer, in order.  The color
attachment is begun with `loadOp = eClear`; the skybox descriptor set (set
index 1) is bound only when `passInfo.skybox` is non-null; the draw call
`draw(3, 1, 0, 0)` is recorded unconditionally at line 67. -/
inductive PassCmd where
  | beginRenderingClear
  | bindPipeline
  | bindDescriptorSet (setIndex : Nat)
  | setViewport
  | setScissor
  | draw (vertexCount instanceCount firstVertex firstInstance : Nat)
  | endRendering
deriving DecidableEq

/-- `SkyboxPass::recordCommands`, keyed on whether the pass context carries
an active skybox (`passInfo.skybox != nullptr`). -/
def skyboxPassRecordCommands (hasSkybox : Bool) : List PassCmd :=
  [PassCmd.beginRenderingClear, PassCmd.bindPipeline, PassCmd.bindDescriptorSet 0]
    ++ (if hasSkybox then [PassCmd.bindDescriptorSet 1] else [])
    ++ [PassCmd.setViewport, PassCmd.setScissor, PassCmd.draw 3 1 0 0,
        PassCmd.endRendering]

/-- Does a recorded command draw any vertices? -/
def isDrawCmd : PassCmd → Bool
  | PassCmd.draw _ _ _ _ => true
  | _ => false

/-- C5 fails on the code: with no active skybox the pass does begin rendering
with a clear of the color target, but the full-screen-triangle draw
`draw(3, 1, 0, 0)` is still recorded — the draw at skybox_pass.cpp line 67 is
outside the `if (passInfo.skybox)` guard. -/
theorem skyboxPass_draws_without_skybox :
    skyboxPassRecordCommands false
      = [PassCmd.beginRenderingClear, PassCmd.bindPipeline,
         PassCmd.bindDescriptorSet 0, PassCmd.setViewport, PassCmd.setScissor,
         PassCmd.draw 3 1 0 0, PassCmd.endRendering] ∧
    (skyboxPassRecordCommands false).head? = some PassCmd.beginRenderingClear ∧
    PassCmd.draw 3 1 0 0 ∈ skyboxPassRecordCommands false ∧
    (skyboxPassRecordCommands false).any isDrawCmd = true := by
  decide

/-! ### Skybox cubemap upload
(gpu_resource_cache.cpp, `GpuResourceCache::uploadSkyboxImageData` lines
429-524, and gpu_device.cpp, `GpuDevice::copyBufferToImage` lines 171-186)

The transfer commands recorded for one skybox.  `copyBufferToImage` builds a
single `vk::BufferImageCopy` region with `baseArrayLayer = 0` and
`layerCount` equal to its `layers` parameter; `uploadSkyboxImageData` passes
the face index `face` as that `layers` argument:

```cpp
for (auto face = uint32_t{0}; face < 6; ++face)
{
    ...
    gpuDevice_.copyBufferToImage(*cmd, *stagingBuffer, *gpuImage.image, width, height, face);
}
```
-/
inductive TransferCmd where
  | transitionLayout (layerCount : Nat)
  | copyToImage (baseArrayLayer layerCount : Nat)
deriving DecidableEq

/-- `GpuDevice::copyBufferToImage`: one copy region covering array layers
`[0, layers)`. -/
def copyBufferToImageCmd (layers : Nat) : TransferCmd :=
  TransferCmd.copyToImage 0 layers

/-- The ordered transfer commands `uploadSkyboxImageData` records for one
skybox: one 6-layer transition, the six face copies, one 6-layer
transition. -/
def uploadSkyboxCmds : List TransferCmd :=
  [TransferCmd.transitionLayout 6]
    ++ (List.range 6).map (fun face => copyBufferToImageCmd face)
    ++ [TransferCmd.transitionLayout 6]

/-- The copy commands the claim describes: face `f` copied into array layer
`f`, for `f = 0..5`. -/
def claimedSkyboxCopyCmds : List TransferCmd :=
  (List.range 6).map (fun face => TransferCmd.copyToImage face 1)

/-- Is a transfer command a buffer-to-image copy? -/
def isCopyCmd : TransferCmd → Bool
  | TransferCmd.copyToImage _ _ => true
  | _ => false

/-- Does a transfer command write array layer `l`? -/
def copyWritesLayer (l : Nat) : TransferCmd → Bool
  | TransferCmd.copyToImage base count => base ≤ l && l < base + count
  | _ => false

/-- C4 fails on the code: the six copies pass the face index as the
`layerCount` of a region based at layer 0, so face 0's copy covers zero
layers, face `f`'s copy covers layers `[0, f)`, no copy ever writes layer 5,
and the copy list differs from the claimed one (face `f` into layer `f`).
The two single 6-layer layout transitions do match the claim. -/
theorem uploadSkybox_copies_wrong_layers :
    uploadSkyboxCmds.filter isCopyCmd
      = [TransferCmd.copyToImage 0 0, TransferCmd.copyToImage 0 1,
         TransferCmd.copyToImage 0 2, TransferCmd.copyToImage 0 3,
         TransferCmd.copyToImage 0 4, TransferCmd.copyToImage 0 5] ∧
    uploadSkyboxCmds.filter isCopyCmd ≠ claimedSkyboxCopyCmds ∧
    (uploadSkyboxCmds.filter (fun c => copyWritesLayer 5 c)) = [] ∧
    (claimedSkyboxCopyCmds.filter (fun c => copyWritesLayer 5 c)).length = 1 ∧
    uploadSkyboxCmds.filter (fun c => ! isCopyCmd c)
      = [TransferCmd.transitionLayout 6, TransferCmd.transitionLayout 6] := by
  decide

/-! ### Physical device selection
(gpu_device.cpp: `isDeviceSuitable` lines 475-513, `selectBestDevice` lines
515-534, `pickPhysicalDevice` lines 394-419)

A physical device is modelled by the fields those functions read: its API
version, its queue families (with their graphics-capability flag and their
present-support answer for the target surface), its supported extension
names, and its device type. -/
structure QueueFamily where
  graphics : Bool
  present : Bool
deriving DecidableEq

inductive PhysDeviceType where
  | discreteGpu
  | integratedGpu
  | otherType
deriving DecidableEq

structure PhysDevice where
  apiVersion : Nat
  queueFamilies : List QueueFamily
  extensions : List String
  deviceType : PhysDeviceType
deriving DecidableEq

/-- `deviceExtensions` (gpu_device.cpp line 12): the swapchain extension. -/
def requiredDeviceExtensions : List String := ["VK_KHR_swapchain"]

/-- `VK_API_VERSION_1_3` = variant 0, major 1, minor 3, patch 0. -/
def vkApiVersion13 : Nat := 1 * 2 ^ 22 + 3 * 2 ^ 12

/-- `isDiscreteGpu` (gpu_device.cpp lines 14-17). -/
def isDiscreteGpu (d : PhysDevice) : Bool :=
  d.deviceType == PhysDeviceType.discreteGpu

/-- `supportsGraphicsQueue` (gpu_device.cpp lines 19-22). -/
def supportsGraphicsQueue (q : QueueFamily) : Bool :=
  q.graphics

/-- `GpuDevice::isDeviceSuitable`: minimum API version, a graphics-capable
queue family, and all required device extensions.  (It performs no check of
present support for the target surface.) -/
def isDeviceSuitable (d : PhysDevice) : Bool :=
  if d.apiVersion < vkApiVersion13 then
    false
  else if !(d.queueFamilies.any supportsGraphicsQueue) then
    false
  else if !(requiredDeviceExtensions.all (fun e => d.extensions.contains e)) then
    false
  else
    true

/-- `GpuDevice::selectBestDevice`: a single candidate is returned as-is;
otherwise the first discrete GPU if any, else the first candidate.  (The
source throws `std::invalid_argument` on an empty list.) -/
def selectBestDevice : List PhysDevice → Except String PhysDevice
  | [] => Except.error "No devices to select between!"
  | [d] => Except.ok d
  | d :: rest =>
    match (d :: rest).find? isDiscreteGpu with
    | some dd => Except.ok dd
    | none => Except.ok d

/-- `GpuDevice::pickPhysicalDevice`: fatal when no device exists or none is
suitable; otherwise `selectBestDevice` over the suitable ones. -/
def pickPhysicalDevice (devices : List PhysDevice) : Except String PhysDevice :=
  if devices.isEmpty then
    Except.error "Failed to find GPU with Vulkan support"
  else
    let suitableDevices := devices.filter isDeviceSuitable
    if suitableDevices.isEmpty then
      Except.error "Failed to find a GPU with suitable Vulkan support"
    else
      selectBestDevice suitableDevices

/-- A device that meets the API minimum, has a graphics queue family and the
swapchain extension, but whose queue families all lack present support. -/
def noPresentDevice : PhysDevice :=
  { apiVersion := vkApiVersion13
    queueFamilies := [{ graphics := true, present := false }]
    extensions := ["VK_KHR_swapchain"]
    deviceType := PhysDeviceType.otherType }

/-- C10 as stated is false: suitability filtering never consults present
support.  `noPresentDevice` has no present-capable queue family for the
surface, yet `isDeviceSuitable` accepts it and `pickPhysicalDevice` selects
it instead of failing. -/
theorem deviceSelection_ignores_present_support :
    noPresentDevice.queueFamilies.all (fun q => !q.present) = true ∧
    isDeviceSuitable noPresentDevice = true ∧
    pickPhysicalDevice [noPresentDevice] = Except.ok noPresentDevice := by
  decide

/-- `selectBestDevice` on a non-empty list: the first discrete GPU if any,
otherwise the first element. -/
lemma selectBestDevice_cons (d : PhysDevice) (rest : List PhysDevice) :
    selectBestDevice (d :: rest)
      = Except.ok (((d :: rest).find? isDiscreteGpu).getD d) := by
  match rest with
  | [] =>
    show Except.ok d = _
    cases hf : (d :: ([] : List PhysDevice)).find? isDiscreteGpu with
    | none => rfl
    | some dd =>
      rw [List.find?_cons] at hf
      cases hdisc : isDiscreteGpu d with
      | false => simp [hdisc] at hf
      | true =>
        simp [hdisc] at hf
        simp [hf]
  | e :: rest' =>
    show (match (d :: e :: rest').find? isDiscreteGpu with
          | some dd => Except.ok dd
          | none => Except.ok d) = _
    cases hf : (d :: e :: rest').find? isDiscreteGpu <;> simp [hf]

/-- C10 (amended): device selection keeps the devices that meet the minimum
API version, have a graphics-capable queue family, and expose all required
extensions — present support is not part of the filter (it is only enforced
afterwards, when the logical device's present queue is created).  Among the
suitable devices the first discrete GPU is preferred, otherwise the first
suitable one; selection fails fatally when no device exists or none is
suitable. -/
theorem deviceSelection_spec (devices : List PhysDevice) :
    (∀ d, isDeviceSuitable d
      = (decide (vkApiVersion13 ≤ d.apiVersion)
          && d.queueFamilies.any supportsGraphicsQueue
          && requiredDeviceExtensions.all (fun e => d.extensions.contains e))) ∧
    (devices = [] →
      pickPhysicalDevice devices = Except.error "Failed to find GPU with Vulkan support") ∧
    (devices ≠ [] → devices.filter isDeviceSuitable = [] →
      pickPhysicalDevice devices
        = Except.error "Failed to find a GPU with suitable Vulkan support") ∧
    (∀ d rest, devices.filter isDeviceSuitable = d :: rest →
      pickPhysicalDevice devices
        = Except.ok (((d :: rest).find? isDiscreteGpu).getD d)) := by
  refine ⟨?_, ?_, ?_, ?_⟩
  · intro d
    unfold isDeviceSuitable
    by_cases h1 : d.apiVersion < vkApiVersion13
    · rw [if_pos h1]
      have hd : decide (vkApiVersion13 ≤ d.apiVersion) = false := by
        simp only [decide_eq_false_iff_not]
        omega
      rw [hd]
      rfl
    · rw [if_neg h1]
      have hd : decide (vkApiVersion13 ≤ d.apiVersion) = true := by
        simp only [decide_eq_true_eq]
        omega
      rw [hd]
      cases h2 : d.queueFamilies.any supportsGraphicsQueue <;>
        cases h3 : requiredDeviceExtensions.all (fun e => d.extensions.contains e) <;>
        rfl
  · intro h
    subst h
    rfl
  · intro hne hfilt
    unfold pickPhysicalDevice
    rw [if_neg (by simpa using hne)]
    simp only [hfilt]
    rfl
  · intro d rest hfilt
    unfold pickPhysicalDevice
    have hne : devices ≠ [] := by
      intro h
      subst h
      simp at hfilt
    rw [if_neg (by simpa using hne)]
    simp only [hfilt]
    rw [if_neg (by simp)]
    exact selectBestDevice_cons d rest

/-- An integrated and a discrete device, both suitable. -/
def integratedDevice : PhysDevice :=
  { apiVersion := vkApiVersion13
    queueFamilies := [{ graphics := true, present := true }]
    extensions := ["VK_KHR_swapchain"]
    deviceType := PhysDeviceType.integratedGpu }

def discreteDevice : PhysDevice :=
  { apiVersion := vkApiVersion13 + 5
    queueFamilies := [{ graphics := true, present := true }]
    extensions := ["VK_KHR_swapchain", "VK_KHR_maintenance1"]
    deviceType := PhysDeviceType.discreteGpu }

/-- Witness for C10's amended theorem: with an integrated device listed
first and a discrete one second, both suitable, selection picks the discrete
GPU. -/
theorem deviceSelection_spec_witness :
    pickPhysicalDevice [integratedDevice, discreteDevice] = Except.ok discreteDevice ∧
    isDeviceSuitable noPresentDevice = true := by
  have h := deviceSelection_spec [integratedDevice, discreteDevice]
  refine ⟨?_, ?_⟩
  · have h4 := h.2.2.2 integratedDevice [discreteDevice] (by decide)
    rw [h4]
    decide
  · rw [(deviceSelection_spec [noPresentDevice]).1 noPresentDevice]
    decide

/-! ### Material upload
(gpu_resource_cache.cpp, `GpuResourceCache::uploadMaterialData` lines
236-333)

Asset handles are C++ pointers; they are modelled as `Nat` keys.  The loop
assigns each material the running `currentOffset` (a uint32_t starting at 0,
incremented by `static_cast<uint32_t>(stride)` after each material) and
allocates `maxFramesInFlight_` descriptor sets per material
(`allocInfo.descriptorSetCount = maxFramesInFlight_`). -/
structure MaterialAsset where
  /-- `material->diffuseTexture`: handle of the diffuse image, if any. -/
  diffuseTexture : Option Nat
deriving DecidableEq

/-- `sizeof(GpuMaterialBufferData)` (private/gpu_material.h): a `glm::vec4`
(16 bytes), a `uint` flag (4 bytes) and `uint _padding[3]` (12 bytes). -/
def sizeofGpuMaterialBufferData : Nat := 32

/-- `GpuMaterial` (private/gpu_material.h): the offset into the shared
dynamic uniform buffer. -/
structure GpuMaterialRec where
  uboOffset : Nat
deriving DecidableEq

/-- The two per-material maps `uploadMaterialData` populates:
`gpuMaterials_` and `materialDescriptorSets_` (the latter recorded by the
number of descriptor sets allocated for the material). -/
structure MaterialUploadResult where
  gpuMaterials : List (Nat × GpuMaterialRec)
  materialDescriptorSets : List (Nat × Nat)
deriving DecidableEq

/-- The per-material loop of `uploadMaterialData`.  `currentOffset` is a
uint32_t, hence the `% 2 ^ 32` reductions on the cast and the increment. -/
def uploadMaterialLoop (stride maxFrames : Nat) :
    List (Nat × MaterialAsset) → Nat → MaterialUploadResult
  | [], _ => { gpuMaterials := [], materialDescriptorSets := [] }
  | (handle, _mat) :: rest, currentOffset =>
    { gpuMaterials := (handle, { uboOffset := currentOffset })
        :: (uploadMaterialLoop stride maxFrames rest
              ((currentOffset + stride % 2 ^ 32) % 2 ^ 32)).gpuMaterials
      materialDescriptorSets := (handle, maxFrames)
        :: (uploadMaterialLoop stride maxFrames rest
              ((currentOffset + stride % 2 ^ 32) % 2 ^ 32)).materialDescriptorSets }

/-- `GpuResourceCache::uploadMaterialData`: early return on an empty list,
otherwise stride = `alignMemory(sizeof(GpuMaterialBufferData),
minUniformBufferOffsetAlignment)` and the loop starting at offset 0. -/
def uploadMaterialData (materials : List (Nat × MaterialAsset))
    (maxFrames minAlign : Nat) : MaterialUploadResult :=
  if materials.isEmpty then
    { gpuMaterials := [], materialDescriptorSets := [] }
  else
    uploadMaterialLoop (alignMemory sizeofGpuMaterialBufferData minAlign)
      maxFrames materials 0

/-- Offsets and set counts produced by the material loop: entry `i` carries
the `i`-th handle, offset `off + i * stride` and `maxFrames` descriptor
sets, as long as the uint32_t offsets never wrap. -/
lemma uploadMaterialLoop_spec (stride maxFrames : Nat) (hstride : stride < 2 ^ 32) :
    ∀ (mats : List (Nat × MaterialAsset)) (off : Nat),
      off + stride * mats.length < 2 ^ 32 →
      (uploadMaterialLoop stride maxFrames mats off).gpuMaterials.length = mats.length ∧
      (uploadMaterialLoop stride maxFrames mats off).materialDescriptorSets.length
        = mats.length ∧
      ∀ i, i < mats.length →
        ((uploadMaterialLoop stride maxFrames mats off).gpuMaterials.getD i
            (0, { uboOffset := 0 })).1
          = (mats.getD i (0, { diffuseTexture := none })).1 ∧
        ((uploadMaterialLoop stride maxFrames mats off).gpuMaterials.getD i
            (0, { uboOffset := 0 })).2.uboOffset
          = off + i * stride ∧
        ((uploadMaterialLoop stride maxFrames mats off).materialDescriptorSets.getD i
            (0, 0)).2
          = maxFrames := by
  intro mats
  induction mats with
  | nil =>
    intro off _
    exact ⟨rfl, rfl, fun i hi => absurd hi (by simp)⟩
  | cons p rest ih =>
    intro off hno
    obtain ⟨handle, mat⟩ := p
    have hmod : stride % 2 ^ 32 = stride := Nat.mod_eq_of_lt hstride
    have hexp : stride * (rest.length + 1) = stride * rest.length + stride := by ring
    rw [List.length_cons, hexp] at hno
    have hoff' : off + stride < 2 ^ 32 := by omega
    have hoffeq : (off + stride % 2 ^ 32) % 2 ^ 32 = off + stride := by
      rw [hmod, Nat.mod_eq_of_lt hoff']
    have hno' : (off + stride % 2 ^ 32) % 2 ^ 32 + stride * rest.length < 2 ^ 32 := by
      rw [hoffeq]
      omega
    obtain ⟨ih1, ih2, ih3⟩ := ih ((off + stride % 2 ^ 32) % 2 ^ 32) hno'
    refine ⟨?_, ?_, ?_⟩
    · simp only [uploadMaterialLoop, List.length_cons, ih1]
    · simp only [uploadMaterialLoop, List.length_cons, ih2]
    · intro i hi
      cases i with
      | zero =>
        refine ⟨rfl, ?_, rfl⟩
        show off = off + 0 * stride
        omega
      | succ j =>
        have hj : j < rest.length := by
          simp only [List.length_cons] at hi
          omega
        obtain ⟨e1, e2, e3⟩ := ih3 j hj
        refine ⟨?_, ?_, ?_⟩
        · simp only [uploadMaterialLoop, List.getD_cons_succ]
          exact e1
        · simp only [uploadMaterialLoop, List.getD_cons_succ]
          rw [e2, hoffeq]
          ring
        · simp only [uploadMaterialLoop, List.getD_cons_succ]
          exact e3

/-- C6: for a non-empty material list, each uploaded material gets exactly
`maxFrames` descriptor sets, the `i`-th material's dynamic-UBO offset is
`i * stride` with `stride = alignMemory(sizeof(GpuMaterialBufferData),
minAlign)` — so successive offsets differ by exactly the stride — and every
offset is a multiple of the device's minimum uniform-buffer-offset
alignment. -/
theorem uploadMaterial_offsets_spec (materials : List (Nat × MaterialAsset))
    (maxFrames minAlign : Nat) (hne : materials ≠ [])
    (halign : 0 < minAlign)
    (hno : alignMemory sizeofGpuMaterialBufferData minAlign * materials.length < 2 ^ 32) :
    (uploadMaterialData materials maxFrames minAlign).gpuMaterials.length
      = materials.length ∧
    (uploadMaterialData materials maxFrames minAlign).materialDescriptorSets.length
      = materials.length ∧
    (∀ i, i < materials.length →
      ((uploadMaterialData materials maxFrames minAlign).materialDescriptorSets.getD i
          (0, 0)).2 = maxFrames ∧
      ((uploadMaterialData materials maxFrames minAlign).gpuMaterials.getD i
          (0, { uboOffset := 0 })).2.uboOffset
        = i * alignMemory sizeofGpuMaterialBufferData minAlign ∧
      minAlign ∣ ((uploadMaterialData materials maxFrames minAlign).gpuMaterials.getD i
          (0, { uboOffset := 0 })).2.uboOffset) ∧
    (∀ i, i + 1 < materials.length →
      ((uploadMaterialData materials maxFrames minAlign).gpuMaterials.getD (i + 1)
          (0, { uboOffset := 0 })).2.uboOffset
        = ((uploadMaterialData materials maxFrames minAlign).gpuMaterials.getD i
            (0, { uboOffset := 0 })).2.uboOffset
          + alignMemory sizeofGpuMaterialBufferData minAlign) := by
  have hlen1 : 1 ≤ materials.length := by
    cases materials with
    | nil => exact absurd rfl hne
    | cons a l => simp
  have hstride : alignMemory sizeofGpuMaterialBufferData minAlign < 2 ^ 32 := by
    have : alignMemory sizeofGpuMaterialBufferData minAlign * 1
        ≤ alignMemory sizeofGpuMaterialBufferData minAlign * materials.length := by
      apply Nat.mul_le_mul_left
      omega
    omega
  have hdno : sizeofGpuMaterialBufferData + minAlign < 2 ^ 64 := by
    have hma : minAlign ≤ alignMemory sizeofGpuMaterialBufferData minAlign := by
      by_cases hc : sizeofGpuMaterialBufferData ≤ minAlign
      · rw [alignMemory_of_le _ _ hc]
      · push_neg at hc
        rw [alignMemory_else _ _ halign hc
            (by unfold sizeofGpuMaterialBufferData at hc ⊢; omega)]
        have h1 : 1 ≤ sizeofGpuMaterialBufferData / minAlign + 1 :=
          Nat.succ_le_succ (Nat.zero_le _)
        calc minAlign = minAlign * 1 := by ring
          _ ≤ minAlign * (sizeofGpuMaterialBufferData / minAlign + 1) :=
              Nat.mul_le_mul_left _ h1
    have hlt : minAlign < 2 ^ 32 := lt_of_le_of_lt hma hstride
    show sizeofGpuMaterialBufferData + minAlign < 2 ^ 64
    unfold sizeofGpuMaterialBufferData
    omega
  have hdvd : minAlign ∣ alignMemory sizeofGpuMaterialBufferData minAlign :=
    alignMemory_dvd _ _ halign hdno
  have hmain := uploadMaterialLoop_spec
    (alignMemory sizeofGpuMaterialBufferData minAlign) maxFrames hstride materials 0
    (by omega)
  have hunfold : uploadMaterialData materials maxFrames minAlign
      = uploadMaterialLoop (alignMemory sizeofGpuMaterialBufferData minAlign)
          maxFrames materials 0 := by
    unfold uploadMaterialData
    rw [if_neg (by simpa using hne)]
  obtain ⟨h1, h2, h3⟩ := hmain
  rw [hunfold]
  refine ⟨h1, h2, ?_, ?_⟩
  · intro i hi
    obtain ⟨_, e2, e3⟩ := h3 i hi
    rw [e2, Nat.zero_add]
    exact ⟨e3, rfl, Dvd.dvd.mul_left hdvd i⟩
  · intro i hi
    obtain ⟨_, e2, _⟩ := h3 i (by omega)
    obtain ⟨_, e2', _⟩ := h3 (i + 1) hi
    rw [e2, e2']
    ring

/-- Witness for C6: two materials, two frames in flight, alignment 256. -/
theorem uploadMaterial_offsets_spec_witness :
    (uploadMaterialData [(1, { diffuseTexture := none }),
        (2, { diffuseTexture := some 9 })] 2 256).gpuMaterials.length = 2 ∧
    (uploadMaterialData [(1, { diffuseTexture := none }),
        (2, { diffuseTexture := some 9 })] 2 256).materialDescriptorSets.length = 2 ∧
    (∀ i, i < ([(1, ({ diffuseTexture := none } : MaterialAsset)),
        (2, { diffuseTexture := some 9 })]).length →
      ((uploadMaterialData [(1, { diffuseTexture := none }),
          (2, { diffuseTexture := some 9 })] 2 256).materialDescriptorSets.getD i
          (0, 0)).2 = 2 ∧
      ((uploadMaterialData [(1, { diffuseTexture := none }),
          (2, { diffuseTexture := some 9 })] 2 256).gpuMaterials.getD i
          (0, { uboOffset := 0 })).2.uboOffset
        = i * alignMemory sizeofGpuMaterialBufferData 256 ∧
      (256:Nat) ∣ ((uploadMaterialData [(1, { diffuseTexture := none }),
          (2, { diffuseTexture := some 9 })] 2 256).gpuMaterials.getD i
          (0, { uboOffset := 0 })).2.uboOffset) ∧
    (∀ i, i + 1 < ([(1, ({ diffuseTexture := none } : MaterialAsset)),
        (2, { diffuseTexture := some 9 })]).length →
      ((uploadMaterialData [(1, { diffuseTexture := none }),
          (2, { diffuseTexture := some 9 })] 2 256).gpuMaterials.getD (i + 1)
          (0, { uboOffset := 0 })).2.uboOffset
        = ((uploadMaterialData [(1, { diffuseTexture := none }),
            (2, { diffuseTexture := some 9 })] 2 256).gpuMaterials.getD i
            (0, { uboOffset := 0 })).2.uboOffset
          + alignMemory sizeofGpuMaterialBufferData 256) :=
  uploadMaterial_offsets_spec
    [(1, { diffuseTexture := none }), (2, { diffuseTexture := some 9 })] 2 256
    (by decide) (by decide) (by decide)

/-! ### Mesh upload
(gpu_resource_cache.cpp, `GpuResourceCache::uploadMeshData` lines 335-427)

All sub-meshes, flattened in iteration order.  The vertex/index payloads are
abstracted to their element counts — the upload arithmetic reads only
`subMesh->vertices.size()` and `subMesh->indices.size()`.  The cumulative
offsets are size_t accumulators; the stored `GpuMesh` fields are
`static_cast<uint32_t>` of them, hence `% 2 ^ 32`. -/
structure SubMeshAsset where
  vertices : Nat
  indices : Nat
deriving DecidableEq

/-- `GpuMesh` (private/gpu_mesh.h). -/
structure GpuMesh where
  vertexOffset : Nat
  vertexCount : Nat
  indexOffset : Nat
  indexCount : Nat
deriving DecidableEq

/-- Sum of all sub-meshes' vertex counts (`totalVertices` in the source). -/
def totalVertices (subMeshes : List (Nat × SubMeshAsset)) : Nat :=
  (subMeshes.map (fun p => p.2.vertices)).sum

/-- Sum of all sub-meshes' index counts (`totalIndices` in the source). -/
def totalIndices (subMeshes : List (Nat × SubMeshAsset)) : Nat :=
  (subMeshes.map (fun p => p.2.indices)).sum

/-- The per-sub-mesh loop of `uploadMeshData`: record the current cumulative
offsets and this sub-mesh's counts, then advance the offsets. -/
def uploadMeshLoop :
    List (Nat × SubMeshAsset) → Nat → Nat → List (Nat × GpuMesh)
  | [], _, _ => []
  | (handle, subMesh) :: rest, currentVertexOffset, currentIndexOffset =>
    (handle,
      { vertexOffset := currentVertexOffset % 2 ^ 32
        vertexCount := subMesh.vertices % 2 ^ 32
        indexOffset := currentIndexOffset % 2 ^ 32
        indexCount := subMesh.indices % 2 ^ 32 })
      :: uploadMeshLoop rest (currentVertexOffset + subMesh.vertices)
          (currentIndexOffset + subMesh.indices)

/-- `GpuResourceCache::uploadMeshData`: the loop starting at offsets 0. -/
def uploadMeshData (subMeshes : List (Nat × SubMeshAsset)) : List (Nat × GpuMesh) :=
  uploadMeshLoop subMeshes 0 0

/-- The sum of the first `i` counts plus the `i`-th count is at most the
total. -/
lemma take_sum_getD_le (f : SubMeshAsset → Nat) :
    ∀ (l : List (Nat × SubMeshAsset)) (i : Nat), i < l.length →
      ((l.take i).map (fun p => f p.2)).sum + f (l.getD i (0, ⟨0, 0⟩)).2
        ≤ (l.map (fun p => f p.2)).sum
  | [], i, hi => absurd hi (by simp)
  | p :: rest, 0, _ => by simp
  | p :: rest, i + 1, hi => by
    have hr := take_sum_getD_le f rest i (by simpa using hi)
    simp only [List.take_succ_cons, List.map_cons, List.sum_cons, List.getD_cons_succ]
    omega

/-- Entry `i` of the mesh loop: offsets are the starting offsets plus the
sums of the preceding counts; counts are the sub-mesh's own counts — as long
as the uint32_t casts do not truncate. -/
lemma uploadMeshLoop_spec :
    ∀ (subMeshes : List (Nat × SubMeshAsset)) (vOff iOff : Nat),
      vOff + totalVertices subMeshes < 2 ^ 32 →
      iOff + totalIndices subMeshes < 2 ^ 32 →
      (uploadMeshLoop subMeshes vOff iOff).length = subMeshes.length ∧
      ∀ i, i < subMeshes.length →
        ((uploadMeshLoop subMeshes vOff iOff).getD i (0, ⟨0, 0, 0, 0⟩)).1
          = (subMeshes.getD i (0, ⟨0, 0⟩)).1 ∧
        ((uploadMeshLoop subMeshes vOff iOff).getD i (0, ⟨0, 0, 0, 0⟩)).2.vertexOffset
          = vOff + totalVertices (subMeshes.take i) ∧
        ((uploadMeshLoop subMeshes vOff iOff).getD i (0, ⟨0, 0, 0, 0⟩)).2.vertexCount
          = (subMeshes.getD i (0, ⟨0, 0⟩)).2.vertices ∧
        ((uploadMeshLoop subMeshes vOff iOff).getD i (0, ⟨0, 0, 0, 0⟩)).2.indexOffset
          = iOff + totalIndices (subMeshes.take i) ∧
        ((uploadMeshLoop subMeshes vOff iOff).getD i (0, ⟨0, 0, 0, 0⟩)).2.indexCount
          = (subMeshes.getD i (0, ⟨0, 0⟩)).2.indices := by
  intro subMeshes
  induction subMeshes with
  | nil =>
    intro vOff iOff _ _
    exact ⟨rfl, fun i hi => absurd hi (by simp)⟩
  | cons p rest ih =>
    intro vOff iOff hv hi
    obtain ⟨handle, subMesh⟩ := p
    have hvtot : totalVertices ((handle, subMesh) :: rest)
        = subMesh.vertices + totalVertices rest := by
      simp [totalVertices]
    have hitot : totalIndices ((handle, subMesh) :: rest)
        = subMesh.indices + totalIndices rest := by
      simp [totalIndices]
    rw [hvtot] at hv
    rw [hitot] at hi
    obtain ⟨ih1, ih2⟩ := ih (vOff + subMesh.vertices) (iOff + subMesh.indices)
      (by omega) (by omega)
    refine ⟨by simp only [uploadMeshLoop, List.length_cons, ih1], ?_⟩
    intro i hilen
    cases i with
    | zero =>
      refine ⟨rfl, ?_, ?_, ?_, ?_⟩ <;>
        simp only [uploadMeshLoop, List.getD_cons_zero, List.take_zero] <;>
        first
          | (show vOff % 2 ^ 32 = vOff + totalVertices []
             rw [Nat.mod_eq_of_lt (by omega)]
             simp [totalVertices])
          | (show subMesh.vertices % 2 ^ 32 = subMesh.vertices
             exact Nat.mod_eq_of_lt (by omega))
          | (show iOff % 2 ^ 32 = iOff + totalIndices []
             rw [Nat.mod_eq_of_lt (by omega)]
             simp [totalIndices])
          | (show subMesh.indices % 2 ^ 32 = subMesh.indices
             exact Nat.mod_eq_of_lt (by omega))
    | succ j =>
      have hj : j < rest.length := by
        simp only [List.length_cons] at hilen
        omega
      obtain ⟨e1, e2, e3, e4, e5⟩ := ih2 j hj
      have hvtake : totalVertices (((handle, subMesh) :: rest).take (j + 1))
          = subMesh.vertices + totalVertices (rest.take j) := by
        simp [totalVertices]
      have hitake : totalIndices (((handle, subMesh) :: rest).take (j + 1))
          = subMesh.indices + totalIndices (rest.take j) := by
        simp [totalIndices]
      refine ⟨?_, ?_, ?_, ?_, ?_⟩ <;>
        simp only [uploadMeshLoop, List.getD_cons_succ]
      · exact e1
      · rw [e2, hvtake]
        ring
      · exact e3
      · rw [e4, hitake]
        ring
      · exact e5

/-- C7: after mesh upload, each sub-mesh's GPU record is keyed by its
handle, carries its own counts, has offsets equal to the cumulative sums of
the preceding sub-meshes' counts (in iteration order), and satisfies
`vertexOffset + vertexCount ≤ totalVertexCount` and
`indexOffset + indexCount ≤ totalIndexCount` of the shared buffers. -/
theorem uploadMesh_offsets_in_bounds (subMeshes : List (Nat × SubMeshAsset))
    (hv : totalVertices subMeshes < 2 ^ 32) (hi : totalIndices subMeshes < 2 ^ 32) :
    (uploadMeshData subMeshes).length = subMeshes.length ∧
    ∀ i, i < subMeshes.length →
      ((uploadMeshData subMeshes).getD i (0, ⟨0, 0, 0, 0⟩)).1
        = (subMeshes.getD i (0, ⟨0, 0⟩)).1 ∧
      ((uploadMeshData subMeshes).getD i (0, ⟨0, 0, 0, 0⟩)).2.vertexOffset
        = totalVertices (subMeshes.take i) ∧
      ((uploadMeshData subMeshes).getD i (0, ⟨0, 0, 0, 0⟩)).2.vertexCount
        = (subMeshes.getD i (0, ⟨0, 0⟩)).2.vertices ∧
      ((uploadMeshData subMeshes).getD i (0, ⟨0, 0, 0, 0⟩)).2.indexOffset
        = totalIndices (subMeshes.take i) ∧
      ((uploadMeshData subMeshes).getD i (0, ⟨0, 0, 0, 0⟩)).2.indexCount
        = (subMeshes.getD i (0, ⟨0, 0⟩)).2.indices ∧
      ((uploadMeshData subMeshes).getD i (0, ⟨0, 0, 0, 0⟩)).2.vertexOffset
          + ((uploadMeshData subMeshes).getD i (0, ⟨0, 0, 0, 0⟩)).2.vertexCount
        ≤ totalVertices subMeshes ∧
      ((uploadMeshData subMeshes).getD i (0, ⟨0, 0, 0, 0⟩)).2.indexOffset
          + ((uploadMeshData subMeshes).getD i (0, ⟨0, 0, 0, 0⟩)).2.indexCount
        ≤ totalIndices subMeshes := by
  obtain ⟨h1, h2⟩ := uploadMeshLoop_spec subMeshes 0 0 (by omega) (by omega)
  unfold uploadMeshData
  refine ⟨h1, ?_⟩
  intro i hilen
  obtain ⟨e1, e2, e3, e4, e5⟩ := h2 i hilen
  rw [Nat.zero_add] at e2 e4
  have hvb := take_sum_getD_le (fun sm => sm.vertices) subMeshes i hilen
  have hib := take_sum_getD_le (fun sm => sm.indices) subMeshes i hilen
  refine ⟨e1, e2, e3, e4, e5, ?_, ?_⟩
  · show _ + _ ≤ totalVertices subMeshes
    rw [e2, e3]
    exact hvb
  · show _ + _ ≤ totalIndices subMeshes
    rw [e4, e5]
    exact hib

/-- Witness for C7: two sub-meshes with 4/6 and 3/3 vertex/index counts. -/
theorem uploadMesh_offsets_in_bounds_witness :
    (uploadMeshData [(1, ⟨4, 6⟩), (2, ⟨3, 3⟩)]).length = 2 ∧
    ∀ i, i < ([(1, (⟨4, 6⟩ : SubMeshAsset)), (2, ⟨3, 3⟩)]).length →
      ((uploadMeshData [(1, ⟨4, 6⟩), (2, ⟨3, 3⟩)]).getD i (0, ⟨0, 0, 0, 0⟩)).1
        = (([(1, (⟨4, 6⟩ : SubMeshAsset)), (2, ⟨3, 3⟩)]).getD i (0, ⟨0, 0⟩)).1 ∧
      ((uploadMeshData [(1, ⟨4, 6⟩), (2, ⟨3, 3⟩)]).getD i (0, ⟨0, 0, 0, 0⟩)).2.vertexOffset
        = totalVertices (([(1, (⟨4, 6⟩ : SubMeshAsset)), (2, ⟨3, 3⟩)]).take i) ∧
      ((uploadMeshData [(1, ⟨4, 6⟩), (2, ⟨3, 3⟩)]).getD i (0, ⟨0, 0, 0, 0⟩)).2.vertexCount
        = (([(1, (⟨4, 6⟩ : SubMeshAsset)), (2, ⟨3, 3⟩)]).getD i (0, ⟨0, 0⟩)).2.vertices ∧
      ((uploadMeshData [(1, ⟨4, 6⟩), (2, ⟨3, 3⟩)]).getD i (0, ⟨0, 0, 0, 0⟩)).2.indexOffset
        = totalIndices (([(1, (⟨4, 6⟩ : SubMeshAsset)), (2, ⟨3, 3⟩)]).take i) ∧
      ((uploadMeshData [(1, ⟨4, 6⟩), (2, ⟨3, 3⟩)]).getD i (0, ⟨0, 0, 0, 0⟩)).2.indexCount
        = (([(1, (⟨4, 6⟩ : SubMeshAsset)), (2, ⟨3, 3⟩)]).getD i (0, ⟨0, 0⟩)).2.indices ∧
      ((uploadMeshData [(1, ⟨4, 6⟩), (2, ⟨3, 3⟩)]).getD i (0, ⟨0, 0, 0, 0⟩)).2.vertexOffset
          + ((uploadMeshData [(1, ⟨4, 6⟩), (2, ⟨3, 3⟩)]).getD i (0, ⟨0, 0, 0, 0⟩)).2.vertexCount
        ≤ totalVertices [(1, ⟨4, 6⟩), (2, ⟨3, 3⟩)] ∧
      ((uploadMeshData [(1, ⟨4, 6⟩), (2, ⟨3, 3⟩)]).getD i (0, ⟨0, 0, 0, 0⟩)).2.indexOffset
          + ((uploadMeshData [(1, ⟨4, 6⟩), (2, ⟨3, 3⟩)]).getD i (0, ⟨0, 0, 0, 0⟩)).2.indexCount
        ≤ totalIndices [(1, ⟨4, 6⟩), (2, ⟨3, 3⟩)] :=
  uploadMesh_offsets_in_bounds [(1, ⟨4, 6⟩), (2, ⟨3, 3⟩)] (by decide) (by decide)

/-! ### Resource-cache lookups
(gpu_resource_cache.cpp: `uploadImageData` lines 178-234,
`uploadSkyboxImageData` lines 429-524, and the lookups `gpuImage`,
`gpuMaterial`, `gpuMesh`, `gpuSkyboxImage` lines 49-87)

Each upload emplaces `handle → resource` into an unordered map; lookups find
the handle or throw.  The maps are modelled as association lists in emplace
order (`List.lookup` returns the first binding, matching `emplace`, which
never overwrites).  A `GpuImage`'s device objects are summarised by the
dimensions the upload creates it with. -/
structure ImageAsset where
  width : Nat
  height : Nat
deriving DecidableEq

/-- The `GpuImage` record built for a source image. -/
structure GpuImageRec where
  width : Nat
  height : Nat
deriving DecidableEq

/-- `GpuResourceCache::uploadImageData`: one device image per source image,
sized to the image's width/height. -/
def uploadImageData : List (Nat × ImageAsset) → List (Nat × GpuImageRec)
  | [] => []
  | (handle, img) :: rest =>
    (handle, { width := img.width, height := img.height }) :: uploadImageData rest

/-- A skybox asset: its six face images (`skybox->images`). -/
structure SkyboxAsset where
  faces : List ImageAsset
deriving DecidableEq

/-- The handle→cube-image map built by `uploadSkyboxImageData`: the cube
image is created with face 0's dimensions ("Assume all faces equal
dimensions"). -/
def uploadSkyboxImageData : List (Nat × SkyboxAsset) → List (Nat × GpuImageRec)
  | [] => []
  | (handle, sky) :: rest =>
    (handle,
      { width := (sky.faces.getD 0 { width := 0, height := 0 }).width
        height := (sky.faces.getD 0 { width := 0, height := 0 }).height })
      :: uploadSkyboxImageData rest

/-- `GpuResourceCache::gpuImage`. -/
def gpuImage (gpuImages : List (Nat × GpuImageRec)) (image : Nat) :
    Except String GpuImageRec :=
  match gpuImages.lookup image with
  | some g => Except.ok g
  | none => Except.error "Image handle not uploaded to GPU"

/-- `GpuResourceCache::gpuMaterial`. -/
def gpuMaterial (gpuMaterials : List (Nat × GpuMaterialRec)) (material : Nat) :
    Except String GpuMaterialRec :=
  match gpuMaterials.lookup material with
  | some g => Except.ok g
  | none => Except.error "Material handle not uploaded to GPU"

/-- `GpuResourceCache::gpuMesh`. -/
def gpuMesh (gpuMeshes : List (Nat × GpuMesh)) (mesh : Nat) :
    Except String GpuMesh :=
  match gpuMeshes.lookup mesh with
  | some g => Except.ok g
  | none => Except.error "Mesh handle not uploaded to GPU"

/-- `GpuResourceCache::gpuSkyboxImage`. -/
def gpuSkyboxImage (gpuSkyboxImages : List (Nat × GpuImageRec)) (skybox : Nat) :
    Except String GpuImageRec :=
  match gpuSkyboxImages.lookup skybox with
  | some g => Except.ok g
  | none => Except.error "Skybox handle not uploaded to GPU"

/-- A handle absent from the keys has no binding. -/
lemma lookup_eq_none_of_not_mem {V : Type} (m : List (Nat × V)) (k : Nat)
    (h : k ∉ m.map Prod.fst) : m.lookup k = none := by
  induction m with
  | nil => rfl
  | cons p rest ih =>
    obtain ⟨a, v⟩ := p
    simp only [List.map_cons, List.mem_cons] at h
    push_neg at h
    obtain ⟨h1, h2⟩ := h
    have hbeq : (k == a) = false := beq_eq_false_iff_ne.mpr h1
    simp only [List.lookup, hbeq]
    exact ih h2

/-- A handle present among the keys has a binding. -/
lemma lookup_isSome_of_mem {V : Type} (m : List (Nat × V)) (k : Nat)
    (h : k ∈ m.map Prod.fst) : ∃ v, m.lookup k = some v := by
  induction m with
  | nil => simp at h
  | cons p rest ih =>
    obtain ⟨a, v⟩ := p
    by_cases he : k = a
    · subst he
      exact ⟨v, by simp [List.lookup]⟩
    · have hbeq : (k == a) = false := beq_eq_false_iff_ne.mpr he
      simp only [List.map_cons, List.mem_cons] at h
      rcases h with h | h
      · exact absurd h he
      · obtain ⟨w, hw⟩ := ih h
        refine ⟨w, ?_⟩
        simp only [List.lookup, hbeq]
        exact hw

/-- Image upload preserves the handles. -/
lemma uploadImageData_keys (images : List (Nat × ImageAsset)) :
    (uploadImageData images).map Prod.fst = images.map Prod.fst := by
  induction images with
  | nil => rfl
  | cons p rest ih =>
    obtain ⟨a, v⟩ := p
    simp only [uploadImageData, List.map_cons, ih]

/-- Skybox upload preserves the handles. -/
lemma uploadSkyboxImageData_keys (skyboxes : List (Nat × SkyboxAsset)) :
    (uploadSkyboxImageData skyboxes).map Prod.fst = skyboxes.map Prod.fst := by
  induction skyboxes with
  | nil => rfl
  | cons p rest ih =>
    obtain ⟨a, v⟩ := p
    simp only [uploadSkyboxImageData, List.map_cons, ih]

/-- The material loop preserves the handles. -/
lemma uploadMaterialLoop_keys (stride maxFrames : Nat) :
    ∀ (mats : List (Nat × MaterialAsset)) (off : Nat),
      (uploadMaterialLoop stride maxFrames mats off).gpuMaterials.map Prod.fst
        = mats.map Prod.fst := by
  intro mats
  induction mats with
  | nil => intro off; rfl
  | cons p rest ih =>
    intro off
    obtain ⟨a, v⟩ := p
    simp only [uploadMaterialLoop, List.map_cons, ih]

/-- Material upload preserves the handles. -/
lemma uploadMaterialData_keys (materials : List (Nat × MaterialAsset))
    (maxFrames minAlign : Nat) :
    (uploadMaterialData materials maxFrames minAlign).gpuMaterials.map Prod.fst
      = materials.map Prod.fst := by
  cases materials with
  | nil => rfl
  | cons p rest =>
    unfold uploadMaterialData
    rw [if_neg (by simp)]
    exact uploadMaterialLoop_keys _ _ _ _

/-- The mesh loop preserves the handles. -/
lemma uploadMeshLoop_keys :
    ∀ (subMeshes : List (Nat × SubMeshAsset)) (vOff iOff : Nat),
      (uploadMeshLoop subMeshes vOff iOff).map Prod.fst = subMeshes.map Prod.fst := by
  intro subMeshes
  induction subMeshes with
  | nil => intro vOff iOff; rfl
  | cons p rest ih =>
    intro vOff iOff
    obtain ⟨a, v⟩ := p
    simp only [uploadMeshLoop, List.map_cons, ih]

/-- Mesh upload preserves the handles. -/
lemma uploadMeshData_keys (subMeshes : List (Nat × SubMeshAsset)) :
    (uploadMeshData subMeshes).map Prod.fst = subMeshes.map Prod.fst :=
  uploadMeshLoop_keys subMeshes 0 0

/-- C8: each of the four cache lookups fails with its "not uploaded to GPU"
error — never a default-constructed resource — exactly on handles that were
not part of the uploaded collection, and returns the stored resource for
handles that were. -/
theorem cacheLookup_fatal_or_stored
    (images : List (Nat × ImageAsset)) (materials : List (Nat × MaterialAsset))
    (subMeshes : List (Nat × SubMeshAsset)) (skyboxes : List (Nat × SkyboxAsset))
    (maxFrames minAlign : Nat) (h : Nat) :
    (h ∉ images.map Prod.fst →
      gpuImage (uploadImageData images) h
        = Except.error "Image handle not uploaded to GPU") ∧
    (h ∈ images.map Prod.fst →
      ∃ r, (uploadImageData images).lookup h = some r ∧
        gpuImage (uploadImageData images) h = Except.ok r) ∧
    (h ∉ materials.map Prod.fst →
      gpuMaterial (uploadMaterialData materials maxFrames minAlign).gpuMaterials h
        = Except.error "Material handle not uploaded to GPU") ∧
    (h ∈ materials.map Prod.fst →
      ∃ r, (uploadMaterialData materials maxFrames minAlign).gpuMaterials.lookup h
          = some r ∧
        gpuMaterial (uploadMaterialData materials maxFrames minAlign).gpuMaterials h
          = Except.ok r) ∧
    (h ∉ subMeshes.map Prod.fst →
      gpuMesh (uploadMeshData subMeshes) h
        = Except.error "Mesh handle not uploaded to GPU") ∧
    (h ∈ subMeshes.map Prod.fst →
      ∃ r, (uploadMeshData subMeshes).lookup h = some r ∧
        gpuMesh (uploadMeshData subMeshes) h = Except.ok r) ∧
    (h ∉ skyboxes.map Prod.fst →
      gpuSkyboxImage (uploadSkyboxImageData skyboxes) h
        = Except.error "Skybox handle not uploaded to GPU") ∧
    (h ∈ skyboxes.map Prod.fst →
      ∃ r, (uploadSkyboxImageData skyboxes).lookup h = some r ∧
        gpuSkyboxImage (uploadSkyboxImageData skyboxes) h = Except.ok r) := by
  refine ⟨?_, ?_, ?_, ?_, ?_, ?_, ?_, ?_⟩
  · intro hmem
    have hnone : (uploadImageData images).lookup h = none := by
      apply lookup_eq_none_of_not_mem
      rw [uploadImageData_keys]
      exact hmem
    unfold gpuImage
    rw [hnone]
  · intro hmem
    obtain ⟨v, hv⟩ := lookup_isSome_of_mem (uploadImageData images) h
      (by rw [uploadImageData_keys]; exact hmem)
    refine ⟨v, hv, ?_⟩
    unfold gpuImage
    rw [hv]
  · intro hmem
    have hnone : (uploadMaterialData materials maxFrames minAlign).gpuMaterials.lookup h
        = none := by
      apply lookup_eq_none_of_not_mem
      rw [uploadMaterialData_keys]
      exact hmem
    unfold gpuMaterial
    rw [hnone]
  · intro hmem
    obtain ⟨v, hv⟩ := lookup_isSome_of_mem
      (uploadMaterialData materials maxFrames minAlign).gpuMaterials h
      (by rw [uploadMaterialData_keys]; exact hmem)
    refine ⟨v, hv, ?_⟩
    unfold gpuMaterial
    rw [hv]
  · intro hmem
    have hnone : (uploadMeshData subMeshes).lookup h = none := by
      apply lookup_eq_none_of_not_mem
      rw [uploadMeshData_keys]
      exact hmem
    unfold gpuMesh
    rw [hnone]
  · intro hmem
    obtain ⟨v, hv⟩ := lookup_isSome_of_mem (uploadMeshData subMeshes) h
      (by rw [uploadMeshData_keys]; exact hmem)
    refine ⟨v, hv, ?_⟩
    unfold gpuMesh
    rw [hv]
  · intro hmem
    have hnone : (uploadSkyboxImageData skyboxes).lookup h = none := by
      apply lookup_eq_none_of_not_mem
      rw [uploadSkyboxImageData_keys]
      exact hmem
    unfold gpuSkyboxImage
    rw [hnone]
  · intro hmem
    obtain ⟨v, hv⟩ := lookup_isSome_of_mem (uploadSkyboxImageData skyboxes) h
      (by rw [uploadSkyboxImageData_keys]; exact hmem)
    refine ⟨v, hv, ?_⟩
    unfold gpuSkyboxImage
    rw [hv]

/-- Witness for C8: handle 1 is uploaded in each collection, handle 99 in
none; every lookup errors on 99 and returns the stored resource on 1. -/
theorem cacheLookup_fatal_or_stored_witness :
    gpuImage (uploadImageData [(1, { width := 2, height := 2 })]) 99
      = Except.error "Image handle not uploaded to GPU" ∧
    (∃ r, (uploadImageData [(1, { width := 2, height := 2 })]).lookup 1 = some r ∧
      gpuImage (uploadImageData [(1, { width := 2, height := 2 })]) 1 = Except.ok r) ∧
    gpuMaterial (uploadMaterialData [(1, { diffuseTexture := none })] 2 256).gpuMaterials 99
      = Except.error "Material handle not uploaded to GPU" ∧
    (∃ r, (uploadMaterialData [(1, { diffuseTexture := none })] 2 256).gpuMaterials.lookup 1
        = some r ∧
      gpuMaterial (uploadMaterialData [(1, { diffuseTexture := none })] 2 256).gpuMaterials 1
        = Except.ok r) ∧
    gpuMesh (uploadMeshData [(1, { vertices := 4, indices := 6 })]) 99
      = Except.error "Mesh handle not uploaded to GPU" ∧
    (∃ r, (uploadMeshData [(1, { vertices := 4, indices := 6 })]).lookup 1 = some r ∧
      gpuMesh (uploadMeshData [(1, { vertices := 4, indices := 6 })]) 1 = Except.ok r) ∧
    gpuSkyboxImage
      (uploadSkyboxImageData [(1, { faces := [{ width := 8, height := 8 }] })]) 99
      = Except.error "Skybox handle not uploaded to GPU" ∧
    (∃ r, (uploadSkyboxImageData [(1, { faces := [{ width := 8, height := 8 }] })]).lookup 1
        = some r ∧
      gpuSkyboxImage
        (uploadSkyboxImageData [(1, { faces := [{ width := 8, height := 8 }] })]) 1
        = Except.ok r) := by
  have hA := cacheLookup_fatal_or_stored
    [(1, { width := 2, height := 2 })] [(1, { diffuseTexture := none })]
    [(1, { vertices := 4, indices := 6 })] [(1, { faces := [{ width := 8, height := 8 }] })]
    2 256 99
  have hB := cacheLookup_fatal_or_stored
    [(1, { width := 2, height := 2 })] [(1, { diffuseTexture := none })]
    [(1, { vertices := 4, indices := 6 })] [(1, { faces := [{ width := 8, height := 8 }] })]
    2 256 1
  exact ⟨hA.1 (by decide), hB.2.1 (by decide),
    hA.2.2.1 (by decide), hB.2.2.2.1 (by decide),
    hA.2.2.2.2.1 (by decide), hB.2.2.2.2.2.1 (by decide),
    hA.2.2.2.2.2.2.1 (by decide), hB.2.2.2.2.2.2.2 (by decide)⟩

end VulkanLab

